import Mathlib

/-!
Verification development for the LPS production-control spine
(`jflohan-ecs/lps-tool`).

The definitions below are a shallow embedding of the Python sources:
  - `src/app/models/enums.py`    — closed value sets;
  - `src/app/models/domain.py`   — the four persistent entities;
  - `src/app/models/audit.py`    — the audit event record;
  - `src/app/services/state_machine.py` — the enforcement engine;
  - `src/app/api/routes.py`      — route-level wrappers and the drilldown read;
  - `src/app/api/schemas.py`     — request validation.

Conventions: `datetime` values are modelled as `Nat` instants; SQLAlchemy
rows are plain structures; the database session is explicit state
(`Database`); Python exceptions become `Except` results.  Each engine
operation receives the wall clock (`now`) and freshly assigned
auto-increment ids as explicit arguments.
-/

/-- The six states of `WorkItemState` (enums.py). -/
inductive WorkItemState where
  | INTENT
  | NOT_READY
  | READY
  | COMMITTED
  | COMPLETE
  | FAILED
deriving DecidableEq

/-- The `.value` string of each `WorkItemState` member (enums.py). -/
def WorkItemState.value : WorkItemState → String
  | .INTENT => "Intent"
  | .NOT_READY => "Not Ready"
  | .READY => "Ready"
  | .COMMITTED => "Committed"
  | .COMPLETE => "Complete"
  | .FAILED => "Failed"

/-- Binary constraint status (enums.py). -/
inductive ConstraintStatus where
  | OPEN
  | CLEARED
deriving DecidableEq

/-- Commitment status (enums.py). -/
inductive CommitmentStatus where
  | ACTIVE
  | COMPLETE
  | FAILED
deriving DecidableEq

/-- The closed enumeration of primary causes (enums.py). -/
inductive PrimaryCause where
  | ACCESS
  | MATERIALS
  | INFORMATION
  | RESOURCES
  | PERMITS
  | PLANT_OR_EQUIPMENT
  | INTERFACES
  | WEATHER
  | OTHER
deriving DecidableEq

/-- The `.value` string of each `PrimaryCause` member (enums.py). -/
def PrimaryCause.value : PrimaryCause → String
  | .ACCESS => "Access"
  | .MATERIALS => "Materials"
  | .INFORMATION => "Information"
  | .RESOURCES => "Resources"
  | .PERMITS => "Permits"
  | .PLANT_OR_EQUIPMENT => "Plant or equipment"
  | .INTERFACES => "Interfaces"
  | .WEATHER => "Weather"
  | .OTHER => "Other"

/-- External reference-plan systems (enums.py). -/
inductive ReferencePlanSystem where
  | MSP
  | P6
  | OTHER
deriving DecidableEq

/-- The `.value` string of each `ReferencePlanSystem` member (enums.py).
Because these members mix in `str`, Python's `str.join` sees exactly this
underlying string. -/
def ReferencePlanSystem.value : ReferencePlanSystem → String
  | .MSP => "MSP"
  | .P6 => "P6"
  | .OTHER => "Other"

/-- A `constraints` row (domain.py). -/
structure Constraint where
  id : Nat
  work_item_id : Nat
  type : String
  description : Option String
  status : ConstraintStatus
  cleared_by_user_id : Option String
  cleared_at : Option Nat
  created_at : Nat
deriving DecidableEq

/-- A `work_items` row (domain.py).  The `constraints` relationship is
inlined as a field, matching the ORM object used by the state machine;
`reference_plan_dates` is a display-only JSON payload, modelled opaquely. -/
structure WorkItem where
  id : Nat
  title : String
  description : Option String
  location : Option String
  owner_user_id : String
  state : WorkItemState
  reference_plan_system : Option ReferencePlanSystem
  reference_plan_external_id : Option String
  reference_plan_dates : Option String
  constraints : List Constraint
  created_at : Nat
  updated_at : Nat
deriving DecidableEq

/-- A `commitments` row (domain.py). -/
structure Commitment where
  id : Nat
  work_item_id : Nat
  committed_by_user_id : String
  owner_user_id : String
  due_at : Nat
  status : CommitmentStatus
  created_at : Nat
  completed_at : Option Nat
  failed_at : Option Nat
deriving DecidableEq

/-- A `learning_signals` row (domain.py). -/
structure LearningSignal where
  id : Nat
  work_item_id : Nat
  commitment_id : Nat
  primary_cause : PrimaryCause
  secondary_cause : Option String
  notes : Option String
  drilldown_key : String
  created_at : Nat
deriving DecidableEq

/-- The `RefusalError` exception (state_machine.py): a message plus the
`open_constraints` list (defaulting to `[]` when the raise site passes
only a message). -/
structure RefusalError where
  message : String
  open_constraints : List String
deriving DecidableEq

/-- Python's `x or default` for an optional string: `None` and the empty
string are falsy and give the default. -/
def pyOrStr (o : Option String) (dflt : String) : String :=
  match o with
  | none => dflt
  | some s => if s = "" then dflt else s

/-- Python's `sep.join(parts)`. -/
def pyJoin (sep : String) : List String → String
  | [] => ""
  | [s] => s
  | s :: rest => s ++ sep ++ pyJoin sep rest

/-- Worker for `pySplit`: walks the characters, flushing the accumulated
segment (held reversed) at each separator.  Mirrors Python's
`s.split(sep)` for a one-character separator. -/
def pySplitAux (sep : Char) : List Char → List Char → List (List Char)
  | [], acc => [acc.reverse]
  | c :: cs, acc =>
    if c = sep then acc.reverse :: pySplitAux sep cs []
    else pySplitAux sep cs (c :: acc)

/-- Python's `s.split(sep)` for a one-character separator. -/
def pySplit (sep : Char) (s : String) : List String :=
  (pySplitAux sep s.data []).map fun l => ⟨l⟩

/-- `StateMachine.calculate_readiness` (state_machine.py, lines 35–57):
empty constraints → Not Ready; any Open constraint → Not Ready;
otherwise Ready. -/
def calculate_readiness (work_item : WorkItem) : WorkItemState :=
  let constraints := work_item.constraints
  if constraints.isEmpty then WorkItemState.NOT_READY
  else if constraints.any (fun c => c.status == ConstraintStatus.OPEN) then
    WorkItemState.NOT_READY
  else WorkItemState.READY

/-- `StateMachine.update_work_item_state` (state_machine.py, lines 59–79):
frozen in Committed/Complete/Failed, otherwise recomputes readiness and
stamps `updated_at` when the state changes. -/
def update_work_item_state (work_item : WorkItem) (now : Nat) : WorkItem :=
  if work_item.state == WorkItemState.COMMITTED
      || work_item.state == WorkItemState.COMPLETE
      || work_item.state == WorkItemState.FAILED then
    work_item
  else
    let new_state := calculate_readiness work_item
    if work_item.state != new_state then
      { work_item with state := new_state, updated_at := now }
    else work_item

/-- `StateMachine.add_constraint` (state_machine.py, lines 81–105):
creates an Open constraint (id assigned by the database), appends it to
the work item's relationship, and recalculates readiness. -/
def add_constraint (work_item : WorkItem) (constraint_type : String)
    (description : Option String) (newId now : Nat) : Constraint × WorkItem :=
  let constraint : Constraint :=
    { id := newId, work_item_id := work_item.id, type := constraint_type,
      description := description, status := ConstraintStatus.OPEN,
      cleared_by_user_id := none, cleared_at := none, created_at := now }
  let wi := { work_item with constraints := work_item.constraints ++ [constraint] }
  (constraint, update_work_item_state wi now)

/-- `StateMachine.clear_constraint` (state_machine.py, lines 107–125):
sets the constraint Cleared with clearer identity and timestamp, then
recalculates the parent's readiness. -/
def clear_constraint (work_item : WorkItem) (constraint_id : Nat)
    (cleared_by_user_id : String) (now : Nat) : WorkItem :=
  let cs := work_item.constraints.map fun c =>
    if c.id == constraint_id then
      { c with status := ConstraintStatus.CLEARED,
               cleared_by_user_id := some cleared_by_user_id,
               cleared_at := some now }
    else c
  update_work_item_state { work_item with constraints := cs } now

/-- `StateMachine.reopen_constraint` (state_machine.py, lines 127–140):
sets the constraint back to Open, nulls the clearer fields, then
recalculates the parent's readiness. -/
def reopen_constraint (work_item : WorkItem) (constraint_id : Nat)
    (now : Nat) : WorkItem :=
  let cs := work_item.constraints.map fun c =>
    if c.id == constraint_id then
      { c with status := ConstraintStatus.OPEN,
               cleared_by_user_id := none, cleared_at := none }
    else c
  update_work_item_state { work_item with constraints := cs } now

/-- The active-commitment lookup in `create_commitment` (state_machine.py,
lines 162–165): `query(Commitment).filter(work_item_id, ACTIVE).first()`. -/
def active_commitment_of (commitments : List Commitment)
    (work_item : WorkItem) : Option Commitment :=
  (commitments.filter fun c =>
    c.work_item_id == work_item.id && c.status == CommitmentStatus.ACTIVE).head?

/-- The open-constraint list comprehension in `create_commitment`
(state_machine.py, lines 175–179): one `"type: description"` entry per
Open constraint, with a `"(no description)"` placeholder for a falsy
description. -/
def open_constraint_messages (work_item : WorkItem) : List String :=
  (work_item.constraints.filter fun c =>
    c.status == ConstraintStatus.OPEN).map fun c =>
      c.type ++ ": " ++ pyOrStr c.description "(no description)"

/-- `StateMachine.create_commitment` (state_machine.py, lines 142–211).
Checks the active-commitment invariant first, then readiness; a refusal
raises `RefusalError` before any mutation; success creates an Active
commitment and moves the work item to Committed. -/
def create_commitment (commitments : List Commitment) (work_item : WorkItem)
    (committed_by_user_id owner_user_id : String) (due_at newId now : Nat) :
    Except RefusalError (Commitment × WorkItem × List Commitment) :=
  match active_commitment_of commitments work_item with
  | some _ =>
    .error { message := "REFUSAL: This work item already has an active commitment. Complete or fail the existing commitment first.",
             open_constraints := [] }
  | none =>
    if work_item.state != WorkItemState.READY then
      let open_constraints := open_constraint_messages work_item
      if work_item.constraints.isEmpty then
        .error { message := "REFUSAL: Cannot commit work with no constraints. Add at least one constraint and clear it to demonstrate readiness.",
                 open_constraints := [] }
      else
        .error { message := "REFUSAL: Cannot commit Not Ready work. The following constraints are still Open: " ++ pyJoin ", " open_constraints,
                 open_constraints := open_constraints }
    else
      let commitment : Commitment :=
        { id := newId, work_item_id := work_item.id,
          committed_by_user_id := committed_by_user_id,
          owner_user_id := owner_user_id, due_at := due_at,
          status := CommitmentStatus.ACTIVE, created_at := now,
          completed_at := none, failed_at := none }
      .ok (commitment,
           { work_item with state := WorkItemState.COMMITTED, updated_at := now },
           commitments ++ [commitment])

/-- `StateMachine._generate_drilldown_key` (state_machine.py, lines
304–320): `"|".join([primary_cause, location or "no_location",
reference_system or "no_reference"])`. -/
def _generate_drilldown_key (primary_cause : String) (location : Option String)
    (reference_system : Option String) : String :=
  pyJoin "|" [primary_cause, pyOrStr location "no_location",
              pyOrStr reference_system "no_reference"]

/-- `StateMachine.fail_commitment` (state_machine.py, lines 242–287):
unconditionally marks the commitment Failed, stamps `failed_at`, moves
the work item to Failed, and creates exactly one learning signal whose
key is derived from the cause, the work item's location and its
reference-plan system. -/
def fail_commitment (commitment : Commitment) (work_item : WorkItem)
    (primary_cause : PrimaryCause) (secondary_cause notes : Option String)
    (newSignalId now : Nat) : Commitment × WorkItem × LearningSignal :=
  let c := { commitment with status := CommitmentStatus.FAILED,
                             failed_at := some now }
  let wi := { work_item with state := WorkItemState.FAILED, updated_at := now }
  let drilldown_key := _generate_drilldown_key primary_cause.value
    work_item.location (work_item.reference_plan_system.map ReferencePlanSystem.value)
  let learning_signal : LearningSignal :=
    { id := newSignalId, work_item_id := work_item.id,
      commitment_id := commitment.id, primary_cause := primary_cause,
      secondary_cause := secondary_cause, notes := notes,
      drilldown_key := drilldown_key, created_at := now }
  (c, wi, learning_signal)

/-- `StateMachine.complete_commitment` (state_machine.py, lines 213–240):
strictly after the due timestamp the call is redirected to
`fail_commitment` with cause Other and an auto-failure note (the code
re-reads the clock inside the redirect; both reads are modelled by the
same instant `now`); at or before the due timestamp it marks the
commitment Complete and the work item Complete. -/
def complete_commitment (commitment : Commitment) (work_item : WorkItem)
    (newSignalId now : Nat) :
    Commitment × WorkItem × Option LearningSignal :=
  if commitment.due_at < now then
    let r := fail_commitment commitment work_item PrimaryCause.OTHER none
      (some "Auto-failed: Completed after due date") newSignalId now
    (r.1, r.2.1, some r.2.2)
  else
    ({ commitment with status := CommitmentStatus.COMPLETE,
                       completed_at := some now },
     { work_item with state := WorkItemState.COMPLETE, updated_at := now },
     none)

/-- `StateMachine.reset_to_intent` (state_machine.py, lines 289–302):
only Failed or Complete work items may be reset; otherwise a
`ValueError` naming the current state is raised.  (The f-string renders
the enum member; the member's value string stands in for that rendering
here.) -/
def reset_to_intent (work_item : WorkItem) (now : Nat) :
    Except String WorkItem :=
  if work_item.state != WorkItemState.FAILED
      && work_item.state != WorkItemState.COMPLETE then
    .error ("Can only reset Failed or Complete work items. Current state: "
      ++ work_item.state.value)
  else
    .ok { work_item with state := WorkItemState.INTENT, updated_at := now }

/-- The persistent store visible to the routes: the four entity tables
(constraints live inside their parent work item, matching the ORM
relationship). -/
structure Database where
  work_items : List WorkItem
  commitments : List Commitment
  learning_signals : List LearningSignal
deriving DecidableEq

/-- Replace the row of `wi.id` in a work-item table. -/
def replace_work_item (table : List WorkItem) (wi : WorkItem) : List WorkItem :=
  table.map fun x => if x.id == wi.id then wi else x

/-- Replace the row of `c.id` in a commitment table. -/
def replace_commitment (table : List Commitment) (c : Commitment) :
    List Commitment :=
  table.map fun x => if x.id == c.id then c else x

/-- The possible responses of the commit route (routes.py, lines 125–158):
201 with the commitment, 403 with the refusal details, or 404. -/
inductive CommitResponse where
  | created (commitment : Commitment)
  | refusal (r : RefusalError)
  | not_found
deriving DecidableEq

/-- `POST /work-items/{id}/commit` (routes.py, lines 125–158): looks up
the work item, runs `StateMachine.create_commitment`, and maps a
`RefusalError` to a 403 refusal response, leaving the store untouched. -/
def create_commitment_route (db : Database) (work_item_id : Nat)
    (committed_by_user_id owner_user_id : String) (due_at newId now : Nat) :
    CommitResponse × Database :=
  match db.work_items.find? (fun w => w.id == work_item_id) with
  | none => (.not_found, db)
  | some wi =>
    match create_commitment db.commitments wi committed_by_user_id
        owner_user_id due_at newId now with
    | .error r => (.refusal r, db)
    | .ok (c, w, cs) =>
      (.created c,
       { db with commitments := cs,
                 work_items := replace_work_item db.work_items w })

/-- The raw body of `PUT /commitments/{id}/fail` before validation:
pydantic sees every field as optional input data. -/
structure CommitmentFailInput where
  primary_cause : Option PrimaryCause
  secondary_cause : Option String
  notes : Option String
deriving DecidableEq

/-- The validated `CommitmentFail` schema (schemas.py, lines 88–91). -/
structure CommitmentFail where
  primary_cause : PrimaryCause
  secondary_cause : Option String
  notes : Option String
deriving DecidableEq

/-- Validation of the `CommitmentFail` request schema (schemas.py, lines
88–91): `primary_cause` is declared without a default, so pydantic
rejects a payload omitting it before the route handler runs. -/
def CommitmentFail.validate (raw : CommitmentFailInput) :
    Except String CommitmentFail :=
  match raw.primary_cause with
  | none => .error "field required: primary_cause"
  | some pc =>
    .ok { primary_cause := pc, secondary_cause := raw.secondary_cause,
          notes := raw.notes }

/-- `PUT /commitments/{id}/fail` (routes.py, lines 186–203): schema
validation happens before the handler; the handler looks up the
commitment (404 otherwise) and calls `StateMachine.fail_commitment`,
which appends exactly one learning signal.  An error response leaves the
store untouched. -/
def fail_commitment_route (db : Database) (commitment_id : Nat)
    (raw : CommitmentFailInput) (newSignalId now : Nat) :
    Except String LearningSignal × Database :=
  match CommitmentFail.validate raw with
  | .error e => (.error e, db)
  | .ok data =>
    match db.commitments.find? (fun c => c.id == commitment_id) with
    | none => (.error "Commitment not found", db)
    | some commitment =>
      match db.work_items.find? (fun w => w.id == commitment.work_item_id) with
      | none => (.error "Work item not found", db)
      | some wi =>
        let r := fail_commitment commitment wi data.primary_cause
          data.secondary_cause data.notes newSignalId now
        (.ok r.2.2,
         { work_items := replace_work_item db.work_items r.2.1,
           commitments := replace_commitment db.commitments r.1,
           learning_signals := db.learning_signals ++ [r.2.2] })

/-- `POST /work-items/{id}/reset` (routes.py, lines 247–260): looks up
the work item and calls `StateMachine.reset_to_intent`, mapping
`ValueError` to a 400 response and leaving the store untouched. -/
def reset_to_intent_route (db : Database) (work_item_id now : Nat) :
    Except String WorkItem × Database :=
  match db.work_items.find? (fun w => w.id == work_item_id) with
  | none => (.error "Work item not found", db)
  | some wi =>
    match reset_to_intent wi now with
    | .error e => (.error e, db)
    | .ok w => (.ok w, { db with work_items := replace_work_item db.work_items w })

/-- One aggregated row of `GET /learning-signals/drilldown` after the
key is parsed back into components (schemas.py `DrilldownItem`). -/
structure DrilldownItem where
  primary_cause : String
  location : String
  reference_system : String
  count : Nat
  latest_occurrence : Nat
deriving DecidableEq

/-- The key-parsing step of `get_drilldown` (routes.py, lines 232–242):
split the stored key on `"|"` and substitute `"Not specified"` for each
sentinel token.  (`parts[i]` would raise for a key with fewer than two
delimiters; keys written by `_generate_drilldown_key` always contain
exactly the joined three parts, so the list is read with defaults.) -/
def parse_key (key : String) : String × String × String :=
  let parts := pySplit '|' key
  (parts.getD 0 "",
   if parts.getD 1 "" = "no_location" then "Not specified" else parts.getD 1 "",
   if parts.getD 2 "" = "no_reference" then "Not specified" else parts.getD 2 "")

/-- The loop body of `get_drilldown` (routes.py, lines 234–242), applied
to one `(drilldown_key, count, latest)` row of the aggregation query. -/
def parse_drilldown_row (row : String × Nat × Nat) : DrilldownItem :=
  let p := parse_key row.1
  { primary_cause := p.1, location := p.2.1, reference_system := p.2.2,
    count := row.2.1, latest_occurrence := row.2.2 }

/-- The number of learning signals carrying a given drilldown key
(`func.count` over the group). -/
def key_count (signals : List LearningSignal) (k : String) : Nat :=
  signals.countP fun s => s.drilldown_key == k

/-- The most recent `created_at` among the learning signals of a given
drilldown key (`func.max` over the group). -/
def key_latest (signals : List LearningSignal) (k : String) : Nat :=
  ((signals.filter fun s => s.drilldown_key == k).map
    LearningSignal.created_at).foldl max 0

/-- The content of the aggregation query in `get_drilldown` (routes.py,
lines 222–230): one `(key, count, max created_at)` row per distinct
drilldown key.  SQL `GROUP BY` fixes this multiset of rows but not their
order; the order produced by the query is constrained separately. -/
def drilldown_query (signals : List LearningSignal) :
    List (String × Nat × Nat) :=
  ((signals.map LearningSignal.drilldown_key).dedup).map fun k =>
    (k, key_count signals k, key_latest signals k)

/-- `ORDER BY count(...) DESC`: successive rows have non-increasing
counts.  This is the only ordering constraint the query imposes. -/
def count_sorted_desc : List (String × Nat × Nat) → Bool
  | [] => true
  | [_] => true
  | a :: b :: t => (b.2.1 ≤ a.2.1) && count_sorted_desc (b :: t)

/-- The guarantee SQL gives for the row list handed to the parsing loop
of `get_drilldown`: the rows are exactly the grouped aggregates, in some
order that is non-increasing in count.  Ties carry no constraint. -/
def drilldown_query_result (signals : List LearningSignal)
    (rows : List (String × Nat × Nat)) : Prop :=
  rows.Perm (drilldown_query signals) ∧ count_sorted_desc rows = true

/-- Lexicographic comparison of strings by code point, the order Python
uses to compare `str` values. -/
def charListLt : List Char → List Char → Bool
  | [], [] => false
  | [], _ :: _ => true
  | _ :: _, [] => false
  | a :: as, b :: bs =>
    if a.toNat = b.toNat then charListLt as bs
    else decide (a.toNat < b.toNat)

/-- String version of `charListLt`. -/
def strLt (a b : String) : Bool := charListLt a.data b.data

/-- The ordering the specification claims for `get_drilldown`:
descending count with ties broken by key value. -/
def claim_ordered : List (String × Nat × Nat) → Bool
  | [] => true
  | [_] => true
  | a :: b :: t =>
    (b.2.1 < a.2.1 || (b.2.1 == a.2.1 && !strLt b.1 a.1)) && claim_ordered (b :: t)

/-- The final list built by `get_drilldown` from the query rows
(routes.py, lines 233–244). -/
def get_drilldown_items (rows : List (String × Nat × Nat)) :
    List DrilldownItem :=
  rows.map parse_drilldown_row

/-- How a learning signal's location is truly reported: the stored value,
or `"Not specified"` when absent. -/
def display_location : Option String → String
  | none => "Not specified"
  | some l => l

/-- How a learning signal's reference system is truly reported: the
stored value, or `"Not specified"` when absent. -/
def display_reference : Option String → String
  | none => "Not specified"
  | some r => r

/-- The structured payload of an audit event, one shape per event type,
following the payload enumeration of spec §4.2 and the fields asserted
by `src/tests/test_audit_and_immutability.py`. -/
inductive AuditPayload where
  | constraint_created (work_item_id : Nat) (ctype : String)
  | constraint_cleared (work_item_id : Nat)
  | constraint_reopened (work_item_id : Nat)
  | commitment_created (work_item_id : Nat)
  | commitment_completed (on_time : Bool)
  | commitment_failed (primary_cause : String)
  | commitment_refused (work_item_id : Nat) (open_constraint_ids : List Nat)
      (constraint_count : Nat) (attempted_by_user_id : String)
deriving DecidableEq

/-- An `audit_events` row (src/app/models/audit.py, lines 12–30):
event type, subject entity type and id, acting user (nullable),
timestamp and payload. -/
structure AuditEvent where
  event_type : String
  entity_type : String
  entity_id : String
  user_id : Option String
  created_at : Nat
  payload : AuditPayload
deriving DecidableEq

/-- The ids of the currently Open constraints of a work item, as put into
the `open_constraint_ids` payload field of a refusal audit event. -/
def open_constraint_ids (work_item : WorkItem) : List Nat :=
  (work_item.constraints.filter fun c =>
    c.status == ConstraintStatus.OPEN).map Constraint.id

/-- Modelled from the spec: audit emission.  The engine source in
`src/app/services/state_machine.py` contains no audit writes; only the
`AuditEvent` model with its `AuditEventType` constants
(src/app/models/audit.py) and the tests
(src/tests/test_audit_and_immutability.py) are under src/.  Spec §4.2
has `addConstraint` emit exactly one `constraint_created` event with
payload work item id and constraint type. -/
def add_constraint_audited (work_item : WorkItem) (constraint_type : String)
    (description : Option String) (newId now : Nat) :
    (Constraint × WorkItem) × List AuditEvent :=
  let r := add_constraint work_item constraint_type description newId now
  (r, [{ event_type := "constraint_created", entity_type := "Constraint",
         entity_id := toString r.1.id, user_id := none, created_at := now,
         payload := .constraint_created work_item.id constraint_type }])

/-- Modelled from the spec: audit emission (see `add_constraint_audited`).
Spec §4.2 has `clearConstraint` emit exactly one `constraint_cleared`
event with the clearing user. -/
def clear_constraint_audited (work_item : WorkItem) (constraint_id : Nat)
    (cleared_by_user_id : String) (now : Nat) : WorkItem × List AuditEvent :=
  (clear_constraint work_item constraint_id cleared_by_user_id now,
   [{ event_type := "constraint_cleared", entity_type := "Constraint",
      entity_id := toString constraint_id, user_id := some cleared_by_user_id,
      created_at := now, payload := .constraint_cleared work_item.id }])

/-- Modelled from the spec: audit emission (see `add_constraint_audited`).
Spec §4.2 has `reopenConstraint` emit exactly one `constraint_reopened`
event. -/
def reopen_constraint_audited (work_item : WorkItem) (constraint_id : Nat)
    (now : Nat) : WorkItem × List AuditEvent :=
  (reopen_constraint work_item constraint_id now,
   [{ event_type := "constraint_reopened", entity_type := "Constraint",
      entity_id := toString constraint_id, user_id := none, created_at := now,
      payload := .constraint_reopened work_item.id }])

/-- Modelled from the spec: audit emission (see `add_constraint_audited`).
Spec §4.2 has `createCommitment` emit exactly one `commitment_created`
event on success, and on refusal exactly one `commitment_refused_not_ready`
event whose payload carries the work item id, the (possibly empty) list
of open-constraint ids, the constraint count and the attempting user. -/
def create_commitment_audited (commitments : List Commitment)
    (work_item : WorkItem) (committed_by_user_id owner_user_id : String)
    (due_at newId now : Nat) :
    Except RefusalError (Commitment × WorkItem × List Commitment)
      × List AuditEvent :=
  match create_commitment commitments work_item committed_by_user_id
      owner_user_id due_at newId now with
  | .ok r =>
    (.ok r, [{ event_type := "commitment_created", entity_type := "Commitment",
               entity_id := toString r.1.id,
               user_id := some committed_by_user_id, created_at := now,
               payload := .commitment_created work_item.id }])
  | .error r =>
    (.error r,
     [{ event_type := "commitment_refused_not_ready", entity_type := "WorkItem",
        entity_id := toString work_item.id,
        user_id := some committed_by_user_id, created_at := now,
        payload := .commitment_refused work_item.id
          (open_constraint_ids work_item) work_item.constraints.length
          committed_by_user_id }])

/-- Modelled from the spec: audit emission (see `add_constraint_audited`).
Spec §4.2 has `completeCommitment` emit exactly one event: on-time
completion emits `commitment_completed` with payload on_time = true;
the late redirect converges on the failure side effects and emits
`commitment_failed`. -/
def complete_commitment_audited (commitment : Commitment)
    (work_item : WorkItem) (newSignalId now : Nat) :
    (Commitment × WorkItem × Option LearningSignal) × List AuditEvent :=
  let r := complete_commitment commitment work_item newSignalId now
  match r.2.2 with
  | some s =>
    (r, [{ event_type := "commitment_failed", entity_type := "Commitment",
           entity_id := toString commitment.id, user_id := none,
           created_at := now,
           payload := .commitment_failed s.primary_cause.value }])
  | none =>
    (r, [{ event_type := "commitment_completed", entity_type := "Commitment",
           entity_id := toString commitment.id, user_id := none,
           created_at := now, payload := .commitment_completed true }])

/-- Modelled from the spec: audit emission (see `add_constraint_audited`).
Spec §4.2 has `failCommitment` emit exactly one `commitment_failed`
event carrying the primary cause. -/
def fail_commitment_audited (commitment : Commitment) (work_item : WorkItem)
    (primary_cause : PrimaryCause) (secondary_cause notes : Option String)
    (newSignalId now : Nat) :
    (Commitment × WorkItem × LearningSignal) × List AuditEvent :=
  (fail_commitment commitment work_item primary_cause secondary_cause notes
     newSignalId now,
   [{ event_type := "commitment_failed", entity_type := "Commitment",
      entity_id := toString commitment.id, user_id := none, created_at := now,
      payload := .commitment_failed primary_cause.value }])

/-- The keyword arguments accepted by the immutability guard: an omitted
argument is `none`, a supplied one attempts to change that field. -/
structure CommitmentChanges where
  due_at : Option Nat
  owner_user_id : Option String
  committed_by_user_id : Option String
  work_item_id : Option Nat
deriving DecidableEq

/-- Modelled from the spec: `StateMachine.attempt_modify_commitment` is
called by `src/tests/test_audit_and_immutability.py` (lines 246–319) but
absent from `src/app/services/state_machine.py`.  Spec §4.2
(`attemptModifyCommitment`): any attempt to alter due date, owner,
committer, or parent linkage on an existing commitment fails with an
explicit immutability-violation error naming the offending field(s) and
leaves the commitment unchanged. -/
def attempt_modify_commitment (commitment : Commitment)
    (changes : CommitmentChanges) : Except String Commitment :=
  let offending :=
    (if changes.due_at.isSome then ["due_at"] else [])
      ++ (if changes.owner_user_id.isSome then ["owner_user_id"] else [])
      ++ (if changes.committed_by_user_id.isSome then ["committed_by_user_id"] else [])
      ++ (if changes.work_item_id.isSome then ["work_item_id"] else [])
  if offending.isEmpty then .ok commitment
  else
    .error ("IMMUTABILITY VIOLATION: Cannot modify "
      ++ pyJoin ", " offending ++ " on an existing commitment")

/-! ### Helper notions and concrete sample data -/

/-- `sub` occurs as a contiguous substring of `s`. -/
def containsSub (sub s : String) : Prop :=
  ∃ p q, s.data = p ++ sub.data ++ q

/-- `readiness(C)` as a function of the status list only. -/
def readiness_of_statuses (l : List ConstraintStatus) : WorkItemState :=
  if l = [] then WorkItemState.NOT_READY
  else if ConstraintStatus.OPEN ∈ l then WorkItemState.NOT_READY
  else WorkItemState.READY

/-- Sample Open constraint (concrete data for witnesses). -/
def cOpenMaterials : Constraint :=
  { id := 11, work_item_id := 1, type := "Materials",
    description := some "Concrete not delivered",
    status := ConstraintStatus.OPEN, cleared_by_user_id := none,
    cleared_at := none, created_at := 0 }

/-- Sample Cleared constraint (concrete data for witnesses). -/
def cClearedAccess : Constraint :=
  { id := 12, work_item_id := 1, type := "Access", description := none,
    status := ConstraintStatus.CLEARED,
    cleared_by_user_id := some "user_123", cleared_at := some 1,
    created_at := 0 }

/-- Sample Not Ready work item: one Open and one Cleared constraint. -/
def wiNotReady : WorkItem :=
  { id := 1, title := "Foundation pour", description := none,
    location := some "Zone A", owner_user_id := "user_123",
    state := WorkItemState.NOT_READY, reference_plan_system := none,
    reference_plan_external_id := none, reference_plan_dates := none,
    constraints := [cOpenMaterials, cClearedAccess],
    created_at := 0, updated_at := 0 }

/-- Sample Ready work item: a single Cleared constraint. -/
def wiReady : WorkItem :=
  { wiNotReady with
    id := 3
    state := WorkItemState.READY
    constraints := [cClearedAccess] }

/-- Sample fresh work item in Intent state with no constraints. -/
def wiIntent : WorkItem :=
  { wiNotReady with
    id := 2
    state := WorkItemState.INTENT
    constraints := [] }

/-- Sample Committed work item backing an Active commitment. -/
def wiCommitted : WorkItem :=
  { wiNotReady with
    id := 4
    state := WorkItemState.COMMITTED
    location := none
    constraints := [cClearedAccess] }

/-- Sample Complete work item. -/
def wiComplete : WorkItem :=
  { wiNotReady with
    id := 5
    state := WorkItemState.COMPLETE
    constraints := [cClearedAccess] }

/-- Sample Active commitment on `wiCommitted`, due at instant 10. -/
def cmtActive : Commitment :=
  { id := 21, work_item_id := 4, committed_by_user_id := "user_123",
    owner_user_id := "user_123", due_at := 10,
    status := CommitmentStatus.ACTIVE, created_at := 2,
    completed_at := none, failed_at := none }

/-- Sample Complete commitment: completed at instant 5 on `wiComplete`. -/
def cmtComplete : Commitment :=
  { id := 22, work_item_id := 5, committed_by_user_id := "user_123",
    owner_user_id := "user_123", due_at := 100,
    status := CommitmentStatus.COMPLETE, created_at := 2,
    completed_at := some 5, failed_at := none }

/-- Sample store holding only `wiNotReady`. -/
def dbNotReady : Database :=
  { work_items := [wiNotReady], commitments := [], learning_signals := [] }

/-- Sample store holding only `wiIntent`. -/
def dbIntent : Database :=
  { work_items := [wiIntent], commitments := [], learning_signals := [] }

/-- Sample store holding `wiCommitted` with its Active commitment. -/
def dbCommitted : Database :=
  { work_items := [wiCommitted], commitments := [cmtActive],
    learning_signals := [] }

/-- Sample fail-route body omitting the primary cause. -/
def rawNoCause : CommitmentFailInput :=
  { primary_cause := none, secondary_cause := none, notes := none }

/-- Sample fail-route body with cause Weather. -/
def rawWeather : CommitmentFailInput :=
  { primary_cause := some PrimaryCause.WEATHER, secondary_cause := none,
    notes := none }

/-- Sample learning signal with cause Access (drilldown fixtures). -/
def sigAccess : LearningSignal :=
  { id := 31, work_item_id := 1, commitment_id := 21,
    primary_cause := PrimaryCause.ACCESS, secondary_cause := none,
    notes := none, drilldown_key := "Access|a|b", created_at := 1 }

/-- Sample learning signal with cause Materials (drilldown fixtures). -/
def sigMaterials : LearningSignal :=
  { id := 32, work_item_id := 1, commitment_id := 21,
    primary_cause := PrimaryCause.MATERIALS, secondary_cause := none,
    notes := none, drilldown_key := "Materials|a|b", created_at := 2 }

/-- Two learning signals whose keys tie on count. -/
def sigsTied : List LearningSignal := [sigAccess, sigMaterials]

/-- One ordering of the tied aggregation rows. -/
def rowsTiedA : List (String × Nat × Nat) :=
  [("Access|a|b", 1, 1), ("Materials|a|b", 1, 2)]

/-- The other ordering of the tied aggregation rows. -/
def rowsTiedB : List (String × Nat × Nat) :=
  [("Materials|a|b", 1, 2), ("Access|a|b", 1, 1)]

/-! ### Helper lemmas -/

theorem containsSub_self (s : String) : containsSub s s :=
  ⟨[], [], by simp⟩

theorem containsSub_appendLeft {sub t : String} (u : String)
    (h : containsSub sub t) : containsSub sub (u ++ t) := by
  obtain ⟨p, q, hpq⟩ := h
  exact ⟨u.data ++ p, q, by simp [String.data_append, hpq]⟩

theorem containsSub_appendRight {sub t : String} (u : String)
    (h : containsSub sub t) : containsSub sub (t ++ u) := by
  obtain ⟨p, q, hpq⟩ := h
  exact ⟨p, q ++ u.data, by simp [String.data_append, hpq]⟩

theorem containsSub_of_mem_pyJoin {s : String} (sep : String)
    {l : List String} (h : s ∈ l) : containsSub s (pyJoin sep l) := by
  induction l with
  | nil => cases h
  | cons a rest ih =>
    cases rest with
    | nil =>
      have : s = a := by simpa using h
      subst this
      simpa [pyJoin] using containsSub_self s
    | cons b t =>
      rcases List.mem_cons.mp h with he | hmem
      · subst he
        exact ⟨[], (sep ++ pyJoin sep (b :: t)).data,
          by simp [pyJoin, String.data_append]⟩
      · have := containsSub_appendLeft (a ++ sep) (ih hmem)
        simpa [pyJoin, String.data_append] using this

theorem pySplitAux_sep_free (sep : Char) (a : List Char) :
    ∀ acc, sep ∉ a → pySplitAux sep a acc = [acc.reverse ++ a] := by
  induction a with
  | nil => intro acc _; simp [pySplitAux]
  | cons c cs ih =>
    intro acc h
    have hc : ¬ c = sep := fun e => h (by simp [e])
    have hcs : sep ∉ cs := fun m => h (List.mem_cons_of_mem _ m)
    simp [pySplitAux, hc, ih (c :: acc) hcs, List.append_assoc]

theorem pySplitAux_append (sep : Char) (x : List Char) :
    ∀ (acc y : List Char),
      pySplitAux sep (x ++ sep :: y) acc =
        pySplitAux sep x acc ++ pySplitAux sep y [] := by
  induction x with
  | nil => intro acc y; simp [pySplitAux]
  | cons c cs ih =>
    intro acc y
    by_cases hc : c = sep
    · subst hc; simp [pySplitAux, ih]
    · simp [pySplitAux, hc, ih]

theorem pySplitAux_ne_nil (sep : Char) (x : List Char) :
    ∀ acc, pySplitAux sep x acc ≠ [] := by
  induction x with
  | nil => intro acc; simp [pySplitAux]
  | cons c cs ih =>
    intro acc
    by_cases hc : c = sep
    · subst hc; simp [pySplitAux]
    · simp [pySplitAux, hc]
      exact ih _

theorem mem_pySplitAux_sep_free (sep : Char) (x : List Char) :
    ∀ acc, sep ∉ acc → ∀ e ∈ pySplitAux sep x acc, sep ∉ e := by
  induction x with
  | nil =>
    intro acc hacc e he
    simp [pySplitAux] at he
    subst he
    simpa using hacc
  | cons c cs ih =>
    intro acc hacc e he
    by_cases hc : c = sep
    · subst hc
      simp [pySplitAux] at he
      rcases he with he | hmem
      · subst he; simpa using hacc
      · exact ih [] (by simp) e hmem
    · simp [pySplitAux, hc] at he
      refine ih (c :: acc) ?_ e he
      intro m
      rcases List.mem_cons.mp m with e1 | m2
      · exact hc e1.symm
      · exact hacc m2

theorem mem_pySplit_sep_free (sep : Char) (s : String) :
    ∀ e ∈ pySplit sep s, sep ∉ e.data := by
  intro e he
  rcases List.mem_map.mp he with ⟨l0, hl0, he⟩
  subst he
  exact mem_pySplitAux_sep_free sep s.data [] (by simp) l0 hl0

theorem getD_mem_or_default (l : List String) (k : Nat) (d : String) :
    l.getD k d ∈ l ∨ l.getD k d = d := by
  induction l generalizing k with
  | nil => right; simp
  | cons a t ih =>
    cases k with
    | zero => left; simp
    | succ n =>
      rcases ih n with h | h
      · left
        rw [List.getD_cons_succ]
        exact List.mem_cons_of_mem _ h
      · right
        rw [List.getD_cons_succ]
        exact h

/-- Every component of a parsed drilldown key is free of the delimiter,
whatever the key was. -/
theorem parse_key_sep_free (key : String) :
    '|' ∉ (parse_key key).1.data ∧ '|' ∉ (parse_key key).2.1.data ∧
      '|' ∉ (parse_key key).2.2.data := by
  have hfree : ∀ k, '|' ∉ ((pySplit '|' key).getD k "").data := by
    intro k
    rcases getD_mem_or_default (pySplit '|' key) k "" with h | h
    · exact mem_pySplit_sep_free '|' key _ h
    · rw [h]; decide
  have hns : '|' ∉ ("Not specified" : String).data := by decide
  refine ⟨hfree 0, ?_, ?_⟩
  · show '|' ∉ (if (pySplit '|' key).getD 1 "" = "no_location" then
        "Not specified" else (pySplit '|' key).getD 1 "").data
    split
    · exact hns
    · exact hfree 1
  · show '|' ∉ (if (pySplit '|' key).getD 2 "" = "no_reference" then
        "Not specified" else (pySplit '|' key).getD 2 "").data
    split
    · exact hns
    · exact hfree 2

theorem any_status_open (l : List Constraint) :
    l.any (fun c => c.status == ConstraintStatus.OPEN) =
      decide (ConstraintStatus.OPEN ∈ l.map Constraint.status) := by
  induction l with
  | nil => simp
  | cons c t ih =>
    cases hs : c.status <;> simp [List.any_cons, ih, hs, List.mem_cons]

theorem calculate_readiness_eq (wi : WorkItem) :
    calculate_readiness wi =
      readiness_of_statuses (wi.constraints.map Constraint.status) := by
  have hdef : calculate_readiness wi =
      if wi.constraints.isEmpty then WorkItemState.NOT_READY
      else if wi.constraints.any (fun c => c.status == ConstraintStatus.OPEN)
        then WorkItemState.NOT_READY
      else WorkItemState.READY := rfl
  rw [hdef]
  unfold readiness_of_statuses
  rw [any_status_open]
  by_cases h0 : wi.constraints = []
  · simp [h0]
  · by_cases h1 : ConstraintStatus.OPEN ∈ wi.constraints.map Constraint.status
    · simp [h0, h1, List.isEmpty_iff]
    · simp [h0, h1, List.isEmpty_iff, List.map_eq_nil_iff]

theorem readiness_of_statuses_perm {l l' : List ConstraintStatus}
    (h : l.Perm l') :
    readiness_of_statuses l = readiness_of_statuses l' := by
  unfold readiness_of_statuses
  have hlen := h.length_eq
  have h1 : (l = []) ↔ (l' = []) := by
    constructor <;> intro e <;> subst e
    · exact List.length_eq_zero.mp (by simpa using hlen.symm)
    · exact List.length_eq_zero.mp (by simpa using hlen)
  have h2 : ConstraintStatus.OPEN ∈ l ↔ ConstraintStatus.OPEN ∈ l' :=
    h.mem_iff
  by_cases e : l = []
  · simp [e, h1.mp e]
  · have e' : ¬ l' = [] := fun x => e (h1.mpr x)
    by_cases m : ConstraintStatus.OPEN ∈ l
    · simp [e, e', m, h2.mp m]
    · have m' : ConstraintStatus.OPEN ∉ l' := fun x => m (h2.mpr x)
      simp [e, e', m, m']

/-- The character list of a generated drilldown key: the three parts in
order, separated by the delimiter. -/
theorem generate_key_data (a : String) (loc ref : Option String) :
    (_generate_drilldown_key a loc ref).data =
      a.data ++ '|' :: ((pyOrStr loc "no_location").data
        ++ '|' :: (pyOrStr ref "no_reference").data) := by
  show (pyJoin "|" [a, pyOrStr loc "no_location", pyOrStr ref "no_reference"]).data = _
  have h3 : ∀ x y z : String, pyJoin "|" [x, y, z] = x ++ "|" ++ (y ++ "|" ++ z) :=
    fun x y z => rfl
  rw [h3]
  simp [String.data_append]

/-- Splitting a three-part delimiter-free join recovers the parts. -/
theorem pySplit_three (a b c : String) (ha : '|' ∉ a.data)
    (hb : '|' ∉ b.data) (hc : '|' ∉ c.data) :
    pySplit '|' ⟨a.data ++ '|' :: (b.data ++ '|' :: c.data)⟩ = [a, b, c] := by
  show ((pySplitAux '|' (a.data ++ '|' :: (b.data ++ '|' :: c.data)) []).map
    fun l => (⟨l⟩ : String)) = [a, b, c]
  rw [pySplitAux_append '|' a.data [] (b.data ++ '|' :: c.data),
      pySplitAux_append '|' b.data [] c.data,
      pySplitAux_sep_free '|' a.data [] ha,
      pySplitAux_sep_free '|' b.data [] hb,
      pySplitAux_sep_free '|' c.data [] hc]
  simp

/-- Parsing a freshly generated key with delimiter-free parts yields the
three parts, with the sentinel substitutions of the read path applied. -/
theorem parse_generate (a : String) (loc ref : Option String)
    (ha : '|' ∉ a.data) (hb : '|' ∉ (pyOrStr loc "no_location").data)
    (hc : '|' ∉ (pyOrStr ref "no_reference").data) :
    parse_key (_generate_drilldown_key a loc ref) =
      (a,
       if pyOrStr loc "no_location" = "no_location" then "Not specified"
         else pyOrStr loc "no_location",
       if pyOrStr ref "no_reference" = "no_reference" then "Not specified"
         else pyOrStr ref "no_reference") := by
  have hkey : _generate_drilldown_key a loc ref =
      ⟨a.data ++ '|' :: ((pyOrStr loc "no_location").data
        ++ '|' :: (pyOrStr ref "no_reference").data)⟩ := by
    apply String.ext
    rw [generate_key_data]
  rw [parse_key, hkey, pySplit_three a _ _ ha hb hc]
  rfl

theorem status_ne_open (s : ConstraintStatus) :
    s ≠ ConstraintStatus.OPEN ↔ s = ConstraintStatus.CLEARED := by
  cases s <;> simp

theorem open_not_mem_iff (l : List Constraint) :
    ConstraintStatus.OPEN ∉ l.map Constraint.status ↔
      ∀ c ∈ l, c.status = ConstraintStatus.CLEARED := by
  constructor
  · intro h c hc
    have hne : c.status ≠ ConstraintStatus.OPEN :=
      fun e => h (List.mem_map.mpr ⟨c, hc, e⟩)
    exact (status_ne_open _).mp hne
  · intro h m
    rcases List.mem_map.mp m with ⟨c, hc, he⟩
    rw [h c hc] at he
    cases he

theorem readiness_ready_iff (l : List ConstraintStatus) :
    readiness_of_statuses l = WorkItemState.READY ↔
      l ≠ [] ∧ ConstraintStatus.OPEN ∉ l := by
  unfold readiness_of_statuses
  by_cases e : l = [] <;> by_cases m : ConstraintStatus.OPEN ∈ l <;>
    simp [e, m]

theorem pc_value_sep_free (pc : PrimaryCause) : '|' ∉ pc.value.data := by
  cases pc <;> decide

/-! ### Claim theorems -/

/-- C3: for every work item, `calculate_readiness` returns Ready exactly
when the constraint list is non-empty and every constraint is Cleared;
otherwise it returns Not Ready.  The result is invariant under
permutation of the constraints and depends only on their statuses. -/
theorem calculate_readiness_contract (wi : WorkItem) :
    (calculate_readiness wi = WorkItemState.READY ↔
      wi.constraints ≠ [] ∧
        ∀ c ∈ wi.constraints, c.status = ConstraintStatus.CLEARED) ∧
    (¬ (wi.constraints ≠ [] ∧
        ∀ c ∈ wi.constraints, c.status = ConstraintStatus.CLEARED) →
      calculate_readiness wi = WorkItemState.NOT_READY) ∧
    (∀ wi' : WorkItem,
      (wi.constraints.map Constraint.status).Perm
        (wi'.constraints.map Constraint.status) →
      calculate_readiness wi = calculate_readiness wi') := by
  have hready : calculate_readiness wi = WorkItemState.READY ↔
      wi.constraints ≠ [] ∧
        ∀ c ∈ wi.constraints, c.status = ConstraintStatus.CLEARED := by
    rw [calculate_readiness_eq, readiness_ready_iff, open_not_mem_iff]
    simp [List.map_eq_nil_iff]
  refine ⟨hready, ?_, ?_⟩
  · intro h
    rw [calculate_readiness_eq]
    unfold readiness_of_statuses
    by_cases e : wi.constraints.map Constraint.status = []
    · simp [e]
    · by_cases m : ConstraintStatus.OPEN ∈ wi.constraints.map Constraint.status
      · simp [e, m]
      · exact absurd ⟨by simpa [List.map_eq_nil_iff] using e,
          (open_not_mem_iff _).mp m⟩ h
  · intro wi' hperm
    rw [calculate_readiness_eq, calculate_readiness_eq]
    exact readiness_of_statuses_perm hperm

/-- Witness for C3 at concrete inputs: a work item with an Open
constraint is Not Ready, one with a single Cleared constraint is Ready. -/
theorem calculate_readiness_contract_witness :
    calculate_readiness wiNotReady = WorkItemState.NOT_READY ∧
    calculate_readiness wiReady = WorkItemState.READY :=
  ⟨(calculate_readiness_contract wiNotReady).2.1 (by decide),
   (calculate_readiness_contract wiReady).1.mpr ⟨by decide, by decide⟩⟩

/-- C4: `complete_commitment` invoked strictly after the due timestamp is
redirected to the failure path — commitment Failed with `failed_at`
stamped, work item Failed, one learning signal with cause Other and the
auto-failure note — and the commitment is never Complete; invoked at or
before the due timestamp it marks the commitment Complete with
`completed_at` stamped and moves the work item to Complete. -/
theorem complete_commitment_contract (c : Commitment) (wi : WorkItem)
    (sid now : Nat) :
    (c.due_at < now →
      complete_commitment c wi sid now =
        ({ c with status := CommitmentStatus.FAILED, failed_at := some now },
         { wi with state := WorkItemState.FAILED, updated_at := now },
         some { id := sid, work_item_id := wi.id, commitment_id := c.id,
                primary_cause := PrimaryCause.OTHER, secondary_cause := none,
                notes := some "Auto-failed: Completed after due date",
                drilldown_key := _generate_drilldown_key
                  PrimaryCause.OTHER.value wi.location
                  (wi.reference_plan_system.map ReferencePlanSystem.value),
                created_at := now }) ∧
      (complete_commitment c wi sid now).1.status ≠
        CommitmentStatus.COMPLETE) ∧
    (¬ c.due_at < now →
      complete_commitment c wi sid now =
        ({ c with status := CommitmentStatus.COMPLETE,
                  completed_at := some now },
         { wi with state := WorkItemState.COMPLETE, updated_at := now },
         none)) := by
  constructor
  · intro h
    have heq : complete_commitment c wi sid now =
        ({ c with status := CommitmentStatus.FAILED, failed_at := some now },
         { wi with state := WorkItemState.FAILED, updated_at := now },
         some { id := sid, work_item_id := wi.id, commitment_id := c.id,
                primary_cause := PrimaryCause.OTHER, secondary_cause := none,
                notes := some "Auto-failed: Completed after due date",
                drilldown_key := _generate_drilldown_key
                  PrimaryCause.OTHER.value wi.location
                  (wi.reference_plan_system.map ReferencePlanSystem.value),
                created_at := now }) := by
      simp [complete_commitment, fail_commitment, h]
    refine ⟨heq, ?_⟩
    rw [heq]
    simp
  · intro h
    simp [complete_commitment, h]

/-- Witness for C4 at concrete inputs: completing the sample commitment
(due at 10) at instant 20 yields a Failed commitment, at instant 5 a
Complete one. -/
theorem complete_commitment_contract_witness :
    (complete_commitment cmtActive wiCommitted 9 20).1.status =
      CommitmentStatus.FAILED ∧
    (complete_commitment cmtActive wiCommitted 9 5).1.status =
      CommitmentStatus.COMPLETE := by
  have hlate :=
    (complete_commitment_contract cmtActive wiCommitted 9 20).1 (by decide)
  have hontime :=
    (complete_commitment_contract cmtActive wiCommitted 9 5).2 (by decide)
  exact ⟨by rw [hlate.1], by rw [hontime]⟩

/-- C7 (amended): when `complete_commitment` or `fail_commitment` moves
an Active commitment (with both termination timestamps unset) away from
Active, exactly one of `completed_at`/`failed_at` becomes set; however
neither operation checks the current status, so `fail_commitment` marks
any commitment Failed regardless of its status. -/
theorem commitment_termination_contract (c : Commitment) (wi : WorkItem)
    (pc : PrimaryCause) (sc nts : Option String) (sid now : Nat)
    (hact : c.status = CommitmentStatus.ACTIVE)
    (hcomp : c.completed_at = none) (hfail : c.failed_at = none) :
    ((complete_commitment c wi sid now).1.completed_at = some now ∧
       (complete_commitment c wi sid now).1.failed_at = none ∧
       (complete_commitment c wi sid now).1.status =
         CommitmentStatus.COMPLETE ∨
     (complete_commitment c wi sid now).1.completed_at = none ∧
       (complete_commitment c wi sid now).1.failed_at = some now ∧
       (complete_commitment c wi sid now).1.status =
         CommitmentStatus.FAILED) ∧
    ((fail_commitment c wi pc sc nts sid now).1.completed_at = none ∧
     (fail_commitment c wi pc sc nts sid now).1.failed_at = some now ∧
     (fail_commitment c wi pc sc nts sid now).1.status =
       CommitmentStatus.FAILED) ∧
    (∀ (c' : Commitment) (wi' : WorkItem),
      (fail_commitment c' wi' pc sc nts sid now).1.status =
        CommitmentStatus.FAILED) := by
  refine ⟨?_, ?_, ?_⟩
  · by_cases h : c.due_at < now
    · right
      simp [complete_commitment, fail_commitment, h, hcomp]
    · left
      simp [complete_commitment, h, hfail]
  · simp [fail_commitment, hcomp]
  · intro c' wi'
    simp [fail_commitment]

/-- Counterexample for C7 as stated: `fail_commitment` applied to the
sample commitment that is already Complete (no longer Active) produces a
Complete-to-Failed transition, leaving both termination timestamps set
and moving the work item out of Complete. -/
theorem fail_commitment_reterminates_complete :
    cmtComplete.status = CommitmentStatus.COMPLETE ∧
    wiComplete.state = WorkItemState.COMPLETE ∧
    (fail_commitment cmtComplete wiComplete PrimaryCause.OTHER none none
      41 10).1.status = CommitmentStatus.FAILED ∧
    (fail_commitment cmtComplete wiComplete PrimaryCause.OTHER none none
      41 10).1.completed_at = some 5 ∧
    (fail_commitment cmtComplete wiComplete PrimaryCause.OTHER none none
      41 10).1.failed_at = some 10 ∧
    (fail_commitment cmtComplete wiComplete PrimaryCause.OTHER none none
      41 10).2.1.state = WorkItemState.FAILED := by
  decide

/-- Witness for C7 (amended) at concrete inputs: terminating the sample
Active commitment late stamps `failed_at` only. -/
theorem commitment_termination_contract_witness :
    (complete_commitment cmtActive wiCommitted 9 20).1.failed_at =
      some 20 ∧
    (fail_commitment cmtActive wiCommitted PrimaryCause.WEATHER none none
      9 20).1.failed_at = some 20 := by
  have h := commitment_termination_contract cmtActive wiCommitted
    PrimaryCause.WEATHER none none 9 20 rfl rfl rfl
  rcases h.1 with h1 | h1
  · exact absurd h1.2.2 (by decide)
  · exact ⟨h1.2.1, h.2.1.2.1⟩

/-- C8: `reset_to_intent` succeeds exactly from Complete or Failed,
setting the state to Intent and stamping `updated_at`; from any other
state it rejects with an error naming the current state and changes
nothing.  On success it leaves the work item's constraints untouched,
and the route never changes the commitments or learning-signal tables;
an error response leaves the whole store unchanged. -/
theorem reset_to_intent_contract (wi : WorkItem) (now : Nat)
    (db : Database) (wid : Nat) :
    (wi.state = WorkItemState.COMPLETE ∨ wi.state = WorkItemState.FAILED →
      reset_to_intent wi now =
        .ok { wi with state := WorkItemState.INTENT, updated_at := now }) ∧
    (wi.state ≠ WorkItemState.COMPLETE → wi.state ≠ WorkItemState.FAILED →
      reset_to_intent wi now =
        .error ("Can only reset Failed or Complete work items. Current state: "
          ++ wi.state.value) ∧
      containsSub wi.state.value
        ("Can only reset Failed or Complete work items. Current state: "
          ++ wi.state.value)) ∧
    (∀ w, reset_to_intent wi now = .ok w → w.constraints = wi.constraints) ∧
    ((reset_to_intent_route db wid now).2.commitments = db.commitments) ∧
    ((reset_to_intent_route db wid now).2.learning_signals =
      db.learning_signals) ∧
    (∀ e, (reset_to_intent_route db wid now).1 = .error e →
      (reset_to_intent_route db wid now).2 = db) := by
  have hroute : (reset_to_intent_route db wid now).2.commitments =
      db.commitments ∧
      (reset_to_intent_route db wid now).2.learning_signals =
        db.learning_signals ∧
      ∀ e, (reset_to_intent_route db wid now).1 = .error e →
        (reset_to_intent_route db wid now).2 = db := by
    unfold reset_to_intent_route
    rcases hf : db.work_items.find? (fun w => w.id == wid) with _ | w
    · simp [hf]
    · rcases hr : reset_to_intent w now with e | w'
      · simp [hf, hr]
      · simp [hf, hr]
  refine ⟨?_, ?_, ?_, hroute.1, hroute.2.1, hroute.2.2⟩
  · intro h
    rcases h with h | h <;> simp [reset_to_intent, h]
  · intro h1 h2
    refine ⟨by simp [reset_to_intent, h1, h2], ?_⟩
    exact containsSub_appendLeft _ (containsSub_self _)
  · intro w hw
    unfold reset_to_intent at hw
    by_cases h : wi.state != WorkItemState.FAILED
        && wi.state != WorkItemState.COMPLETE
    · rw [if_pos h] at hw
      cases hw
    · rw [if_neg h] at hw
      cases hw
      rfl

/-- Witness for C8 at concrete inputs: the sample Complete work item
resets to Intent keeping its constraints; the sample Not Ready work item
is rejected with its state named. -/
theorem reset_to_intent_contract_witness :
    reset_to_intent wiComplete 7 =
      .ok { wiComplete with state := WorkItemState.INTENT, updated_at := 7 } ∧
    reset_to_intent wiNotReady 7 =
      .error "Can only reset Failed or Complete work items. Current state: Not Ready" ∧
    (reset_to_intent_route dbNotReady 1 7).2.commitments =
      dbNotReady.commitments := by
  have h := reset_to_intent_contract wiComplete 7 dbNotReady 1
  have h2 := (reset_to_intent_contract wiNotReady 7 dbNotReady 1).2.1
    (by decide) (by decide)
  exact ⟨h.1 (Or.inl rfl),
    h2.1.trans (congrArg Except.error (by decide)), h.2.2.2.1⟩

/-- C5: `fail_commitment` always creates exactly one learning signal,
linked to the given commitment and work item, carrying the given primary
cause and the drilldown key derived from cause, location and reference
system; at the route level the learning-signal table grows by exactly
that one record, and a request omitting the primary cause is rejected by
schema validation before any entity mutation (the store is returned
unchanged). -/
theorem fail_commitment_contract (c : Commitment) (wi : WorkItem)
    (pc : PrimaryCause) (sc nts : Option String) (sid now : Nat)
    (db : Database) (cid : Nat) (raw : CommitmentFailInput) :
    ((fail_commitment c wi pc sc nts sid now).2.2 =
      { id := sid, work_item_id := wi.id, commitment_id := c.id,
        primary_cause := pc, secondary_cause := sc, notes := nts,
        drilldown_key := _generate_drilldown_key pc.value wi.location
          (wi.reference_plan_system.map ReferencePlanSystem.value),
        created_at := now }) ∧
    (∀ sig db', fail_commitment_route db cid raw sid now = (.ok sig, db') →
      db'.learning_signals = db.learning_signals ++ [sig]) ∧
    (raw.primary_cause = none →
      fail_commitment_route db cid raw sid now =
        (.error "field required: primary_cause", db)) := by
  refine ⟨rfl, ?_, ?_⟩
  · intro sig db' h
    unfold fail_commitment_route at h
    rcases hv : CommitmentFail.validate raw with e | data <;>
      simp only [hv] at h
    · cases h
    · rcases hc : db.commitments.find? (fun x => x.id == cid) with _ | cmt <;>
        simp only [hc] at h
      · cases h
      · rcases hw : db.work_items.find? (fun w => w.id == cmt.work_item_id)
          with _ | w <;> simp only [hw] at h
        · cases h
        · cases h
          rfl
  · intro h
    unfold fail_commitment_route
    simp [CommitmentFail.validate, h]

/-- C6: any attempt through the immutability guard to alter an existing
commitment's due date, owner, committer, or parent work-item linkage
fails with an explicit immutability-violation error whose message names
each offending field, and never returns a modified commitment; a call
attempting nothing returns the commitment unchanged. -/
theorem attempt_modify_commitment_guard (c : Commitment)
    (ch : CommitmentChanges)
    (h : ch.due_at.isSome = true ∨ ch.owner_user_id.isSome = true ∨
      ch.committed_by_user_id.isSome = true ∨
      ch.work_item_id.isSome = true) :
    (∃ msg, attempt_modify_commitment c ch = .error msg ∧
      containsSub "IMMUTABILITY VIOLATION" msg ∧
      (ch.due_at.isSome = true → containsSub "due_at" msg) ∧
      (ch.owner_user_id.isSome = true → containsSub "owner_user_id" msg) ∧
      (ch.committed_by_user_id.isSome = true →
        containsSub "committed_by_user_id" msg) ∧
      (ch.work_item_id.isSome = true → containsSub "work_item_id" msg)) ∧
    (∀ c', attempt_modify_commitment c ch ≠ .ok c') := by
  have hdef : attempt_modify_commitment c ch =
      if ((if ch.due_at.isSome then ["due_at"] else [])
          ++ (if ch.owner_user_id.isSome then ["owner_user_id"] else [])
          ++ (if ch.committed_by_user_id.isSome then ["committed_by_user_id"] else [])
          ++ (if ch.work_item_id.isSome then ["work_item_id"] else [])).isEmpty
      then .ok c
      else .error ("IMMUTABILITY VIOLATION: Cannot modify "
        ++ pyJoin ", "
          ((if ch.due_at.isSome then ["due_at"] else [])
            ++ (if ch.owner_user_id.isSome then ["owner_user_id"] else [])
            ++ (if ch.committed_by_user_id.isSome then ["committed_by_user_id"] else [])
            ++ (if ch.work_item_id.isSome then ["work_item_id"] else []))
        ++ " on an existing commitment") := rfl
  have hmemO : ∀ s,
      s ∈ ((if ch.due_at.isSome then ["due_at"] else [])
        ++ (if ch.owner_user_id.isSome then ["owner_user_id"] else [])
        ++ (if ch.committed_by_user_id.isSome then ["committed_by_user_id"] else [])
        ++ (if ch.work_item_id.isSome then ["work_item_id"] else [])) →
      containsSub s ("IMMUTABILITY VIOLATION: Cannot modify "
        ++ pyJoin ", "
          ((if ch.due_at.isSome then ["due_at"] else [])
            ++ (if ch.owner_user_id.isSome then ["owner_user_id"] else [])
            ++ (if ch.committed_by_user_id.isSome then ["committed_by_user_id"] else [])
            ++ (if ch.work_item_id.isSome then ["work_item_id"] else []))
        ++ " on an existing commitment") := by
    intro s hs
    exact containsSub_appendRight _
      (containsSub_appendLeft _ (containsSub_of_mem_pyJoin ", " hs))
  have hne : ((if ch.due_at.isSome then ["due_at"] else [])
      ++ (if ch.owner_user_id.isSome then ["owner_user_id"] else [])
      ++ (if ch.committed_by_user_id.isSome then ["committed_by_user_id"] else [])
      ++ (if ch.work_item_id.isSome then ["work_item_id"] else [])) ≠ [] := by
    rcases h with h | h | h | h <;> simp [h]
  have hempty : ((if ch.due_at.isSome then ["due_at"] else [])
      ++ (if ch.owner_user_id.isSome then ["owner_user_id"] else [])
      ++ (if ch.committed_by_user_id.isSome then ["committed_by_user_id"] else [])
      ++ (if ch.work_item_id.isSome then ["work_item_id"] else [])).isEmpty
      = false := by
    rw [List.isEmpty_eq_false_iff_exists_mem]
    rcases List.exists_mem_of_ne_nil _ hne with ⟨x, hx⟩
    exact ⟨x, hx⟩
  rw [hdef, if_neg (by rw [hempty]; simp)]
  refine ⟨⟨_, rfl, ?_, ?_, ?_, ?_, ?_⟩, by intro c' hx; cases hx⟩
  · refine containsSub_appendRight _ (containsSub_appendRight _ ?_)
    exact ⟨[], ": Cannot modify ".data, by decide⟩
  · intro hf
    exact hmemO "due_at" (by simp [hf])
  · intro hf
    exact hmemO "owner_user_id" (by simp [hf])
  · intro hf
    exact hmemO "committed_by_user_id" (by simp [hf])
  · intro hf
    exact hmemO "work_item_id" (by simp [hf])

/-- Witness for C6 at concrete inputs: attempting to change the sample
commitment's due date is rejected with an immutability-violation error
and never yields a commitment. -/
theorem attempt_modify_commitment_guard_witness :
    attempt_modify_commitment cmtActive
      { due_at := some 99, owner_user_id := none,
        committed_by_user_id := none, work_item_id := none } =
      .error "IMMUTABILITY VIOLATION: Cannot modify due_at on an existing commitment" ∧
    ∀ c', attempt_modify_commitment cmtActive
      { due_at := some 99, owner_user_id := none,
        committed_by_user_id := none, work_item_id := none } ≠ .ok c' := by
  have h := attempt_modify_commitment_guard cmtActive
    { due_at := some 99, owner_user_id := none,
      committed_by_user_id := none, work_item_id := none } (Or.inl rfl)
  exact ⟨congrArg Except.error (by decide), h.2⟩

/-- C2: each audited engine operation writes exactly one audit event of
the type matching its decision point: constraint creation, clearing and
reopening, commitment creation, on-time completion, late completion
(redirected to the failure event), and failure each emit exactly the one
corresponding event; every refusal of a commitment attempt emits exactly
one `commitment_refused_not_ready` event carrying the acting user id and
the full open-constraint id list, which is empty when the work item has
no constraints. -/
theorem audited_operations_emit_one_event (wi : WorkItem) (ct : String)
    (d : Option String) (cid newId now : Nat) (u : String)
    (commitments : List Commitment) (cb ow : String) (due sid : Nat)
    (c : Commitment) (pc : PrimaryCause) (sc nts : Option String) :
    ((add_constraint_audited wi ct d newId now).2 =
      [{ event_type := "constraint_created", entity_type := "Constraint",
         entity_id := toString newId, user_id := none, created_at := now,
         payload := .constraint_created wi.id ct }]) ∧
    ((clear_constraint_audited wi cid u now).2 =
      [{ event_type := "constraint_cleared", entity_type := "Constraint",
         entity_id := toString cid, user_id := some u, created_at := now,
         payload := .constraint_cleared wi.id }]) ∧
    ((reopen_constraint_audited wi cid now).2 =
      [{ event_type := "constraint_reopened", entity_type := "Constraint",
         entity_id := toString cid, user_id := none, created_at := now,
         payload := .constraint_reopened wi.id }]) ∧
    (∀ r, create_commitment commitments wi cb ow due newId now = .error r →
      (create_commitment_audited commitments wi cb ow due newId now).2 =
        [{ event_type := "commitment_refused_not_ready",
           entity_type := "WorkItem", entity_id := toString wi.id,
           user_id := some cb, created_at := now,
           payload := .commitment_refused wi.id (open_constraint_ids wi)
             wi.constraints.length cb }]) ∧
    (∀ x, create_commitment commitments wi cb ow due newId now = .ok x →
      (create_commitment_audited commitments wi cb ow due newId now).2 =
        [{ event_type := "commitment_created", entity_type := "Commitment",
           entity_id := toString x.1.id, user_id := some cb,
           created_at := now, payload := .commitment_created wi.id }]) ∧
    (wi.constraints = [] → open_constraint_ids wi = []) ∧
    (c.due_at < now →
      (complete_commitment_audited c wi sid now).2 =
        [{ event_type := "commitment_failed", entity_type := "Commitment",
           entity_id := toString c.id, user_id := none, created_at := now,
           payload := .commitment_failed PrimaryCause.OTHER.value }]) ∧
    (¬ c.due_at < now →
      (complete_commitment_audited c wi sid now).2 =
        [{ event_type := "commitment_completed", entity_type := "Commitment",
           entity_id := toString c.id, user_id := none, created_at := now,
           payload := .commitment_completed true }]) ∧
    ((fail_commitment_audited c wi pc sc nts sid now).2 =
      [{ event_type := "commitment_failed", entity_type := "Commitment",
         entity_id := toString c.id, user_id := none, created_at := now,
         payload := .commitment_failed pc.value }]) := by
  refine ⟨rfl, rfl, rfl, ?_, ?_, ?_, ?_, ?_, rfl⟩
  · intro r hr
    unfold create_commitment_audited
    rw [hr]
  · intro x hx
    unfold create_commitment_audited
    rw [hx]
  · intro h
    simp [open_constraint_ids, h]
  · intro h
    unfold complete_commitment_audited
    simp [complete_commitment, fail_commitment, h]
  · intro h
    unfold complete_commitment_audited
    simp [complete_commitment, h]

/-- Witness for C2 at concrete inputs: a refused commitment attempt on
the sample Not Ready work item emits exactly one refusal event naming
the acting user and the single open constraint id; on the empty-
constraint sample the id list is empty. -/
theorem audited_operations_emit_one_event_witness :
    (create_commitment_audited [] wiNotReady "user_123" "user_123"
      100 51 9).2 =
      [{ event_type := "commitment_refused_not_ready",
         entity_type := "WorkItem", entity_id := "1",
         user_id := some "user_123", created_at := 9,
         payload := .commitment_refused 1 [11] 2 "user_123" }] ∧
    open_constraint_ids wiIntent = [] := by
  have h := (audited_operations_emit_one_event wiNotReady "t" none 0 51 9
    "user_123" [] "user_123" "user_123" 100 0 cmtActive
    PrimaryCause.OTHER none none).2.2.2.1
    ⟨"REFUSAL: Cannot commit Not Ready work. The following constraints are still Open: Materials: Concrete not delivered",
     ["Materials: Concrete not delivered"]⟩ rfl
  have h2 := (audited_operations_emit_one_event wiIntent "t" none 0 51 9
    "user_123" [] "user_123" "user_123" 100 0 cmtActive
    PrimaryCause.OTHER none none).2.2.2.2.2.1 rfl
  exact ⟨h.trans (by decide), h2⟩

/-- C1: `create_commitment` never succeeds when the work item's state is
not Ready, and never succeeds when an Active commitment already exists —
each case raises a `RefusalError` (surfaced by the route as a refusal
response distinct from a fault, with the store unchanged).  The
not-ready refusal carries the formatted open-constraint list and a
message that names every currently Open constraint by type and
description, or — when the work item has no constraints at all — the
explicit zero-constraints message. -/
theorem create_commitment_refusal_contract (db : Database) (wid : Nat)
    (cb ow : String) (due newId now : Nat) (wi : WorkItem)
    (hfind : db.work_items.find? (fun w => w.id == wid) = some wi) :
    (wi.state ≠ WorkItemState.READY →
      ∃ r, create_commitment db.commitments wi cb ow due newId now =
        .error r) ∧
    ((active_commitment_of db.commitments wi).isSome = true →
      create_commitment db.commitments wi cb ow due newId now =
        .error { message := "REFUSAL: This work item already has an active commitment. Complete or fail the existing commitment first.",
                 open_constraints := [] }) ∧
    (active_commitment_of db.commitments wi = none →
      wi.state ≠ WorkItemState.READY → wi.constraints = [] →
      create_commitment db.commitments wi cb ow due newId now =
        .error { message := "REFUSAL: Cannot commit work with no constraints. Add at least one constraint and clear it to demonstrate readiness.",
                 open_constraints := [] }) ∧
    (active_commitment_of db.commitments wi = none →
      wi.state ≠ WorkItemState.READY → wi.constraints ≠ [] →
      ∃ r, create_commitment db.commitments wi cb ow due newId now =
          .error r ∧
        r.open_constraints = open_constraint_messages wi ∧
        ∀ c ∈ wi.constraints, c.status = ConstraintStatus.OPEN →
          containsSub (c.type ++ ": " ++ pyOrStr c.description "(no description)")
            r.message) ∧
    (∀ r, create_commitment db.commitments wi cb ow due newId now =
        .error r →
      create_commitment_route db wid cb ow due newId now =
        (.refusal r, db)) := by
  refine ⟨?_, ?_, ?_, ?_, ?_⟩
  · intro hstate
    unfold create_commitment
    rcases hact : active_commitment_of db.commitments wi with _ | a
    · rw [if_pos (by simp [hstate])]
      by_cases hc : wi.constraints.isEmpty
      · rw [if_pos hc]
        exact ⟨_, rfl⟩
      · rw [if_neg hc]
        exact ⟨_, rfl⟩
    · exact ⟨_, rfl⟩
  · intro hact
    rcases ha : active_commitment_of db.commitments wi with _ | a
    · rw [ha] at hact
      cases hact
    · unfold create_commitment
      rw [ha]
  · intro hact hstate hc
    unfold create_commitment
    rw [hact]
    simp only
    rw [if_pos (by simp [hstate]), if_pos (by simp [hc])]
  · intro hact hstate hc
    unfold create_commitment
    rw [hact]
    simp only
    rw [if_pos (by simp [hstate]),
        if_neg (by simp [List.isEmpty_iff, hc])]
    refine ⟨_, rfl, rfl, ?_⟩
    intro cst hcst hopen
    refine containsSub_appendLeft _ (containsSub_of_mem_pyJoin ", " ?_)
    unfold open_constraint_messages
    exact List.mem_map.mpr ⟨cst, List.mem_filter.mpr ⟨hcst, by simp [hopen]⟩,
      rfl⟩
  · intro r hr
    unfold create_commitment_route
    simp only [hfind, hr]

/-- Witness for C1 at concrete inputs: committing the sample Intent work
item with no constraints is refused with the zero-constraints message
and the route returns the refusal leaving the store unchanged. -/
theorem create_commitment_refusal_contract_witness :
    create_commitment dbIntent.commitments wiIntent "user_123" "user_123"
      100 51 9 =
      .error { message := "REFUSAL: Cannot commit work with no constraints. Add at least one constraint and clear it to demonstrate readiness.",
               open_constraints := [] } ∧
    create_commitment_route dbIntent 2 "user_123" "user_123" 100 51 9 =
      (.refusal { message := "REFUSAL: Cannot commit work with no constraints. Add at least one constraint and clear it to demonstrate readiness.",
                  open_constraints := [] }, dbIntent) := by
  have h := create_commitment_refusal_contract dbIntent 2 "user_123"
    "user_123" 100 51 9 wiIntent rfl
  have h3 := h.2.2.1 rfl (by decide) rfl
  exact ⟨h3, h.2.2.2.2 _ h3⟩

/-- C9 (amended): every row list the drilldown query can hand to the
route is sorted by non-increasing count, has exactly one row per
distinct drilldown key carrying that key's occurrence count and most
recent creation timestamp, covers every signal's key, and the final item
list is its row-by-row parse.  The query orders by descending count
only, so the relative order of equal-count groups is not fixed. -/
theorem get_drilldown_contract (signals : List LearningSignal)
    (rows : List (String × Nat × Nat))
    (h : drilldown_query_result signals rows) :
    count_sorted_desc rows = true ∧
    rows.length =
      ((signals.map LearningSignal.drilldown_key).dedup).length ∧
    (∀ r ∈ rows, r.2.1 = key_count signals r.1 ∧
      r.2.2 = key_latest signals r.1 ∧
      r.1 ∈ signals.map LearningSignal.drilldown_key) ∧
    (∀ s ∈ signals, ∃ r ∈ rows, r.1 = s.drilldown_key) ∧
    (∀ i ∈ get_drilldown_items rows, ∃ r ∈ rows, i = parse_drilldown_row r) := by
  obtain ⟨hperm, hsort⟩ := h
  refine ⟨hsort, ?_, ?_, ?_, ?_⟩
  · rw [hperm.length_eq]
    unfold drilldown_query
    exact List.length_map _ _
  · intro r hr
    have hq : r ∈ drilldown_query signals := hperm.mem_iff.mp hr
    unfold drilldown_query at hq
    rcases List.mem_map.mp hq with ⟨k, hk, he⟩
    cases he
    exact ⟨rfl, rfl, List.mem_dedup.mp hk⟩
  · intro s hs
    have hk : s.drilldown_key ∈
        (signals.map LearningSignal.drilldown_key).dedup :=
      List.mem_dedup.mpr (List.mem_map.mpr ⟨s, hs, rfl⟩)
    have hq : (s.drilldown_key, key_count signals s.drilldown_key,
        key_latest signals s.drilldown_key) ∈ drilldown_query signals :=
      List.mem_map.mpr ⟨s.drilldown_key, hk, rfl⟩
    exact ⟨_, hperm.mem_iff.mpr hq, rfl⟩
  · intro i hi
    rcases List.mem_map.mp hi with ⟨r, hr, he⟩
    exact ⟨r, hr, he.symm⟩

/-- Witness for C9 (amended) at concrete inputs: the tied sample rows
satisfy the query contract and carry the grouped counts and latest
timestamps. -/
theorem get_drilldown_contract_witness :
    count_sorted_desc rowsTiedA = true ∧
    rowsTiedA.length =
      ((sigsTied.map LearningSignal.drilldown_key).dedup).length := by
  have h := get_drilldown_contract sigsTied rowsTiedA ⟨by decide, by decide⟩
  exact ⟨h.1, h.2.1⟩

/-- Counterexample for C9 as stated: on two signals whose keys tie with
count one each, both sample orderings satisfy everything the drilldown
query guarantees, yet they differ — so the output order is not fully
deterministic — and the second ordering violates the claimed
count-then-key ordering. -/
theorem get_drilldown_order_not_deterministic :
    drilldown_query_result sigsTied rowsTiedA ∧
    drilldown_query_result sigsTied rowsTiedB ∧
    rowsTiedA ≠ rowsTiedB ∧
    get_drilldown_items rowsTiedA ≠ get_drilldown_items rowsTiedB ∧
    claim_ordered rowsTiedB = false := by
  refine ⟨⟨by decide, by decide⟩, ⟨by decide, by decide⟩, by decide,
    by decide, by decide⟩

/-- C10 (amended): the drilldown key join is not injective; a location
or reference-system value containing the delimiter is never recovered by
the parse step, so the reported triple differs from the true one; and
the generate-then-parse round-trip recovers the reported components for
every delimiter-free input whose location is neither empty nor the
literal sentinel `"no_location"` and whose reference system is neither
empty nor `"no_reference"`. -/
theorem drilldown_key_roundtrip (pc : PrimaryCause)
    (loc ref : Option String) :
    (_generate_drilldown_key PrimaryCause.OTHER.value (some "a|b")
        (some "c") =
      _generate_drilldown_key PrimaryCause.OTHER.value (some "a")
        (some "b|c")) ∧
    (∀ l, loc = some l → '|' ∈ l.data →
      (parse_key (_generate_drilldown_key pc.value loc ref)).2.1 ≠
        display_location loc) ∧
    (∀ r, ref = some r → '|' ∈ r.data →
      (parse_key (_generate_drilldown_key pc.value loc ref)).2.2 ≠
        display_reference ref) ∧
    ((∀ l, loc = some l → '|' ∉ l.data ∧ l ≠ "" ∧ l ≠ "no_location") →
     (∀ r, ref = some r → '|' ∉ r.data ∧ r ≠ "" ∧ r ≠ "no_reference") →
      parse_key (_generate_drilldown_key pc.value loc ref) =
        (pc.value, display_location loc, display_reference ref)) := by
  refine ⟨by decide, ?_, ?_, ?_⟩
  · intro l hl hmem heq
    have hfree :=
      (parse_key_sep_free (_generate_drilldown_key pc.value loc ref)).2.1
    rw [heq, hl] at hfree
    exact hfree hmem
  · intro r hr hmem heq
    have hfree :=
      (parse_key_sep_free (_generate_drilldown_key pc.value loc ref)).2.2
    rw [heq, hr] at hfree
    exact hfree hmem
  · intro hl hr
    have ha : '|' ∉ pc.value.data := pc_value_sep_free pc
    have hb : '|' ∉ (pyOrStr loc "no_location").data := by
      rcases loc with _ | l
      · decide
      · rcases hl l rfl with ⟨h1, h2, _⟩
        simpa [pyOrStr, h2] using h1
    have hc : '|' ∉ (pyOrStr ref "no_reference").data := by
      rcases ref with _ | r
      · decide
      · rcases hr r rfl with ⟨h1, h2, _⟩
        simpa [pyOrStr, h2] using h1
    rw [parse_generate pc.value loc ref ha hb hc]
    rcases loc with _ | l <;> rcases ref with _ | r
    · simp [pyOrStr, display_location, display_reference]
    · rcases hr r rfl with ⟨_, h2, h3⟩
      simp [pyOrStr, display_location, display_reference, h2, h3]
    · rcases hl l rfl with ⟨_, h2, h3⟩
      simp [pyOrStr, display_location, display_reference, h2, h3]
    · rcases hl l rfl with ⟨_, hl2, hl3⟩
      rcases hr r rfl with ⟨_, hr2, hr3⟩
      simp [pyOrStr, display_location, display_reference, hl2, hl3,
        hr2, hr3]

/-- Witness for C10 (amended) at concrete inputs: a key generated from
absent location and reference parses back to the reported placeholders,
and equals the fixed-format string of the specification. -/
theorem drilldown_key_roundtrip_witness :
    parse_key (_generate_drilldown_key PrimaryCause.MATERIALS.value
      none none) =
      (PrimaryCause.MATERIALS.value, "Not specified", "Not specified") ∧
    _generate_drilldown_key PrimaryCause.MATERIALS.value none none =
      "Materials|no_location|no_reference" := by
  have h := (drilldown_key_roundtrip PrimaryCause.MATERIALS none
    none).2.2.2 (fun l hl => absurd hl (by simp))
    (fun r hr => absurd hr (by simp))
  exact ⟨h, by decide⟩

/-- Counterexample for C10 as stated: the location `"no_location"`
contains no delimiter, yet the generate-then-parse round-trip reports it
as `"Not specified"` — its key collides with the key of an absent
location, so the round-trip does not hold for every delimiter-free
input. -/
theorem drilldown_key_sentinel_collision :
    '|' ∉ ("no_location" : String).data ∧
    parse_key (_generate_drilldown_key PrimaryCause.OTHER.value
        (some "no_location") none) ≠
      (PrimaryCause.OTHER.value, display_location (some "no_location"),
       display_reference none) ∧
    _generate_drilldown_key PrimaryCause.OTHER.value (some "no_location")
        none =
      _generate_drilldown_key PrimaryCause.OTHER.value none none := by
  refine ⟨by decide, by decide, by decide⟩

/-- Witness for C5 at concrete inputs: failing the sample Active
commitment with cause Weather appends exactly one learning signal, and
the body omitting the primary cause is rejected with the store
unchanged. -/
theorem fail_commitment_contract_witness :
    fail_commitment_route dbCommitted 21 rawNoCause 31 9 =
      (.error "field required: primary_cause", dbCommitted) ∧
    (fail_commitment_route dbCommitted 21 rawWeather 31 9).2.learning_signals
      = dbCommitted.learning_signals ++
        [{ id := 31, work_item_id := 4, commitment_id := 21,
           primary_cause := PrimaryCause.WEATHER, secondary_cause := none,
           notes := none,
           drilldown_key := "Weather|no_location|no_reference",
           created_at := 9 }] := by
  have h := fail_commitment_contract cmtActive wiCommitted
    PrimaryCause.WEATHER none none 31 9 dbCommitted 21 rawNoCause
  have h2 := (fail_commitment_contract cmtActive wiCommitted
    PrimaryCause.WEATHER none none 31 9 dbCommitted 21 rawWeather).2.1
    { id := 31, work_item_id := 4, commitment_id := 21,
      primary_cause := PrimaryCause.WEATHER, secondary_cause := none,
      notes := none, drilldown_key := "Weather|no_location|no_reference",
      created_at := 9 }
    (fail_commitment_route dbCommitted 21 rawWeather 31 9).2 (by rfl)
  exact ⟨h.2.2 rfl, h2⟩



